import Mathlib

/-!
Formal model of the auth, tracing and repository layers of a FastAPI
backend (layered MVC web service).  Python functions are embedded as pure
Lean functions: the ambient request-id context variable becomes explicit
state passing, raised `HTTPException`s become `Except` errors, and wall
clock readings become explicit integer parameters.
-/

/-! ## Python dictionaries as association lists

Python `dict` lookup and `dict.update` for a single key.  An update
replaces the value in place when the key is present and appends the pair
otherwise, which matches CPython's insertion-order semantics. -/

/-- Lookup of key `k` in an association list (first occurrence wins). -/
def dictGet {α : Type} : List (String × α) → String → Option α
  | [], _ => none
  | p :: ps, k => if p.1 = k then some p.2 else dictGet ps k

/-- Store `v` under key `k`: replace the first occurrence in place, or
append the pair when the key is absent. -/
def dictSet {α : Type} : List (String × α) → String → α → List (String × α)
  | [], k, v => [(k, v)]
  | p :: ps, k, v => if p.1 = k then (k, v) :: ps else p :: dictSet ps k v

/-! ## Settings (app/config/settings.py)

Only the JWT-relevant fields are modelled; values are loaded from the
environment, so they stay abstract. -/

structure Settings where
  JWT_SECRET_KEY : String
  JWT_ALGORITHM : String
deriving DecidableEq, Repr

/-! ## JWT layer (PyJWT) and app/utils/auth.py -/

/-- A JSON claim value: a string (e.g. the `sub` claim) or an integer
(e.g. the `exp` claim). -/
inductive JwtValue
  | str (s : String)
  | num (n : Int)
deriving DecidableEq, Repr

/-- A structurally well-formed signed token: the encoded payload together
with the key and algorithm it was signed with.  A compact-serialization
string that is not of this shape is `TokenWire.malformed`. -/
structure SignedToken where
  payload : List (String × JwtValue)
  key : String
  alg : String
deriving DecidableEq, Repr

/-- What `decode_token` receives over the wire. -/
inductive TokenWire
  | signed (t : SignedToken)
  | malformed (s : String)
deriving DecidableEq, Repr

/-- PyJWT failure causes.  Every one of these is a subclass of
`jwt.exceptions.InvalidTokenError`. -/
inductive JwtDecodeError
  | decodeError
  | invalidSignature
  | invalidAlgorithm
  | expiredSignature
deriving DecidableEq, Repr

/-- `jwt.encode(payload, key, algorithm)`: signing is modelled by
recording the key and algorithm inside the token. -/
def jwt_encode (payload : List (String × JwtValue)) (key alg : String) : SignedToken :=
  ⟨payload, key, alg⟩

/-- `jwt.decode(token, key, algorithms)` evaluated at integer time `now`:
rejects a malformed string, an algorithm outside the allowed list, a
signature made with a different key, and an `exp` claim that is not in
the strict future (PyJWT raises `ExpiredSignatureError` when
`exp <= now`, leeway 0); otherwise returns the payload. -/
def jwt_decode (w : TokenWire) (key : String) (algorithms : List String)
    (now : Int) : Except JwtDecodeError (List (String × JwtValue)) :=
  match w with
  | .malformed _ => .error .decodeError
  | .signed t =>
    if t.alg ∈ algorithms then
      if t.key = key then
        match dictGet t.payload "exp" with
        | some (.num e) => if e ≤ now then .error .expiredSignature else .ok t.payload
        | some (.str _) => .error .decodeError
        | none => .ok t.payload
      else .error .invalidSignature
    else .error .invalidAlgorithm

/-- `create_access_token(data, expires_delta)` at integer time `now`
(seconds): copies `data`, sets `exp` to `now + expires_delta` when the
delta is truthy (a `timedelta` is falsy exactly when it is zero) and to
`now + 15 minutes` otherwise, then signs with the configured secret and
algorithm. -/
def create_access_token (S : Settings) (data : List (String × JwtValue))
    (expires_delta : Option Int) (now : Int) : SignedToken :=
  let expire : Int :=
    match expires_delta with
    | some d => if d = 0 then now + 15 * 60 else now + d
    | none => now + 15 * 60
  jwt_encode (dictSet data "exp" (.num expire)) S.JWT_SECRET_KEY S.JWT_ALGORITHM

/-- The FastAPI `HTTPException` surface: status code, detail string and
optional extra headers. -/
structure HTTPError where
  status_code : Nat
  detail : String
  headers : Option (List (String × String))
deriving DecidableEq, Repr

/-- The `HTTPException` raised inside `decode_token` when PyJWT fails. -/
def could_not_validate : HTTPError :=
  ⟨401, "Could not validate credentials", some [("WWW-Authenticate", "Bearer")]⟩

/-- `decode_token(token)`: runs `jwt.decode` with the configured secret
and the one-element algorithm list; any `InvalidTokenError` is caught and
converted into a 401 unauthorized response. -/
def decode_token (S : Settings) (token : TokenWire) (now : Int) :
    Except HTTPError (List (String × JwtValue)) :=
  match jwt_decode token S.JWT_SECRET_KEY [S.JWT_ALGORITHM] now with
  | .ok payload => .ok payload
  | .error _ => .error could_not_validate

/-! ## Users (app/models/user.py) and principal resolution -/

/-- The `User` model: `id` is an `Integer` primary key column, so its
Python value is an `int`.  Profile columns not used by any property are
omitted. -/
structure User where
  id : Int
  username : String
  email : String
  hashed_password : String
  is_active : Bool
  is_superuser : Bool
deriving DecidableEq, Repr

/-- `user_service.get_by_username` / repository lookup
`select(User).filter(User.username == username)`: first row whose
`username` column equals the given string. -/
def get_by_username (db : List User) (username : String) : Option User :=
  db.find? (fun u => u.username == username)

/-- The `credentials_exception` literal built inside `get_current_user`. -/
def credentials_exception : HTTPError :=
  ⟨401, "Could not validate credentials", some [("WWW-Authenticate", "Bearer")]⟩

/-- `get_current_user(token, db)`: decodes the token (a failure inside
`decode_token` raises an `HTTPException`, which propagates unchanged; it
is not an `InvalidTokenError`, so the surrounding `except` clause never
fires), reads the `sub` claim, rejects a missing claim, then looks the
subject up by username.  A non-string `sub` (an integer claim) matches no
row of the `TEXT` username column.  Any missing piece raises the same
`credentials_exception`. -/
def get_current_user (S : Settings) (db : List User) (token : TokenWire)
    (now : Int) : Except HTTPError User :=
  match decode_token S token now with
  | .error e => .error e
  | .ok payload =>
    match dictGet payload "sub" with
    | none => .error credentials_exception
    | some sub =>
      match (match sub with
             | .str s => get_by_username db s
             | .num _ => none) with
      | none => .error credentials_exception
      | some user => .ok user

/-- The `HTTPException` raised for an inactive account. -/
def inactive_user_error : HTTPError := ⟨400, "Inactive user", none⟩

/-- `get_current_active_user(current_user)`: passes an active principal
through unchanged and raises 400 for an inactive one. -/
def get_current_active_user (current_user : User) : Except HTTPError User :=
  if !current_user.is_active then .error inactive_user_error
  else .ok current_user

/-! ## User controller authorization gates (app/controllers/user_controller.py) -/

/-- `user_service.get_by_id(db, id)` with `id : str` taken from the URL
path, against the `Integer` id column.  Under the SQLite backend the
repository's tests run on, column affinity converts the string parameter
to an integer, so a row matches when its integer id renders as the given
decimal string. -/
def get_by_id (db : List User) (user_id : String) : Option User :=
  db.find? (fun u => toString u.id == user_id)

/-- Python `!=` between the `str` path parameter and the `int` id
attribute: values of distinct types compare unequal, so the comparison
`user_id != current_user.id` in `update_user` is always `True`. -/
def pyStrNeInt (_s : String) (_n : Int) : Bool := true

def user_not_found_error : HTTPError := ⟨404, "User not found", none⟩

def forbidden_error : HTTPError := ⟨403, "Not enough permissions", none⟩

/-- The `update_user` handler up to and including its authorization gate:
404 when the id matches no row, then 403 unless the requester "is" the
target (the str/int comparison, which never succeeds) or is a superuser.
`Except.ok` means the request passed the gate and the update proceeds. -/
def update_user (db : List User) (user_id : String) (current_user : User) :
    Except HTTPError Unit :=
  match get_by_id db user_id with
  | none => .error user_not_found_error
  | some _ =>
    if pyStrNeInt user_id current_user.id && !current_user.is_superuser then
      .error forbidden_error
    else .ok ()

/-- The `delete_user` handler up to and including its authorization gate:
404 when the id matches no row, then 403 unless the requester is a
superuser (acting on oneself does not suffice). -/
def delete_user (db : List User) (user_id : String) (current_user : User) :
    Except HTTPError Unit :=
  match get_by_id db user_id with
  | none => .error user_not_found_error
  | some _ =>
    if !current_user.is_superuser then .error forbidden_error
    else .ok ()

/-! ## Ambient request-id slot (app/utils/logger.py) -/

/-- Python truthiness of an optional string: `None` and the empty string
are falsy. -/
def pyTruthyStr : Option String → Bool
  | none => false
  | some s => if s = "" then false else true

/-- `set_request_id(id_value)` over an explicit context-variable slot:
the slot is overwritten only when `id_value` is truthy. -/
def set_request_id (request_id_var : Option String) (id_value : Option String) :
    Option String :=
  if pyTruthyStr id_value then id_value else request_id_var

/-- `get_request_id()`: reads the slot. -/
def get_request_id (request_id_var : Option String) : Option String :=
  request_id_var

/-! ## Request-id generation (app/utils/tracing.py, CPython uuid.uuid4) -/

def hexDigitChars : List Char := "0123456789abcdef".data

/-- Lowercase hex digit of `n % 16`. -/
def hexChar (n : Nat) : Char := hexDigitChars.getD (n % 16) '0'

/-- The 32 hex digits of a 128-bit value, most significant first
(the `'%032x' % int` rendering used by `uuid.UUID.__str__`). -/
def hexString32 (n : Nat) : List Char :=
  (List.range 32).map (fun i => hexChar (n / 16 ^ (31 - i)))

/-- `uuid.uuid4()` applied to 128 random bits `r`: CPython clears variant
bits 62-63 and sets bit 63 (`int &= ~(0xc000 << 48); int |= 0x8000 << 48`),
then clears the version nibble, bits 76-79, and sets it to 4
(`int &= ~(0xf000 << 64); int |= 4 << 76`).  The bit operations are
written with division and remainder. -/
def uuid4Nat (r : Nat) : Nat :=
  (r % 2 ^ 128 % 2 ^ 62 + 2 ^ 63 + r % 2 ^ 128 / 2 ^ 64 * 2 ^ 64) % 2 ^ 76
    + 4 * 2 ^ 76
    + (r % 2 ^ 128 % 2 ^ 62 + 2 ^ 63 + r % 2 ^ 128 / 2 ^ 64 * 2 ^ 64) / 2 ^ 80 * 2 ^ 80

/-- `generate_request_id()` = `str(uuid.uuid4())`, parameterized by the
128 random bits `r` drawn by the library: the canonical 8-4-4-4-12
hyphenated lowercase rendering. -/
def generate_request_id (r : Nat) : String :=
  let h := hexString32 (uuid4Nat r)
  String.mk (h.take 8 ++ ['-'] ++ (h.drop 8).take 4 ++ ['-'] ++ (h.drop 12).take 4
    ++ ['-'] ++ (h.drop 16).take 4 ++ ['-'] ++ h.drop 20)

def isHexDigitChar (c : Char) : Bool := hexDigitChars.contains c

/-- Syntactic validity of a request identifier: the canonical UUID4 form,
8-4-4-4-12 lowercase hex digits separated by hyphens, version digit `4`
and RFC 4122 variant digit in `8`/`9`/`a`/`b`. -/
def isValidRequestId (s : String) : Bool :=
  match s.data with
  | a0 :: a1 :: a2 :: a3 :: a4 :: a5 :: a6 :: a7 :: h1 :: b0 :: b1 :: b2 :: b3 ::
    h2 :: c0 :: c1 :: c2 :: c3 :: h3 :: e0 :: e1 :: e2 :: e3 :: h4 :: f0 :: f1 ::
    f2 :: f3 :: f4 :: f5 :: f6 :: f7 :: f8 :: f9 :: f10 :: f11 :: [] =>
    ([a0, a1, a2, a3, a4, a5, a6, a7, b0, b1, b2, b3, c0, c1, c2, c3,
      e0, e1, e2, e3, f0, f1, f2, f3, f4, f5, f6, f7, f8, f9, f10, f11].all
        isHexDigitChar)
      && h1 == '-' && h2 == '-' && h3 == '-' && h4 == '-'
      && c0 == '4'
      && (e0 == '8' || e0 == '9' || e0 == 'a' || e0 == 'b')
  | _ => false

/-! ## Tracing middleware (app/utils/tracing.py, app/middlewares/logging_middleware.py) -/

/-- The parts of a FastAPI `Request` the middleware touches: method, URL
path, the inbound `X-Request-ID` header (absent, or present with some
string value), and the `request.state.request_id` attribute. -/
structure TraceRequest where
  method : String
  path : String
  header_x_request_id : Option String
  state_request_id : Option String
deriving DecidableEq, Repr

/-- The parts of a `Response` the middleware touches. -/
structure MwResponse where
  status_code : Nat
  headers : List (String × String)
deriving DecidableEq, Repr

/-- `set_trace_context_from_request(request)`: take the inbound
`X-Request-ID` header if truthy, else any truthy id already on
`request.state`, else the freshly generated id `fresh`; write the result
to `request.state.request_id` and to the ambient slot, and return it. -/
def set_trace_context_from_request (request : TraceRequest) (slot : Option String)
    (fresh : String) : String × TraceRequest × Option String :=
  let h0 := request.header_x_request_id
  let h1 := if pyTruthyStr h0 then h0 else request.state_request_id
  let request_id := if pyTruthyStr h1 then h1.getD fresh else fresh
  (request_id, { request with state_request_id := some request_id },
    set_request_id slot (some request_id))

/-- `add_trace_headers_to_response(response, request_id)`: sets the
outbound `X-Request-ID` header. -/
def add_trace_headers_to_response (response : MwResponse) (request_id : String) :
    MwResponse :=
  { response with headers := dictSet response.headers "X-Request-ID" request_id }

inductive LogLevel
  | info
  | error
deriving DecidableEq, Repr

structure LogRecord where
  level : LogLevel
  message : String
deriving DecidableEq, Repr

/-- Everything observable about one run of `LoggingMiddleware.dispatch`:
the returned or re-raised outcome, the ambient request-id slot after the
run, and the log records emitted. -/
structure DispatchResult (ε : Type) where
  outcome : Except ε MwResponse
  slot : Option String
  logs : List LogRecord

/-- `LoggingMiddleware.dispatch(request, call_next)`.  `rand` is the
randomness consumed by `generate_request_id`, `start_time`/`end_time` are
the two `time.time()` readings, `call_next` is the downstream handler
chain (returning a response or raising an error of type `ε`), and
`err_str` is Python `str` on that error type.  On success the response
gains `X-Request-ID` and `X-Process-Time` headers; on a downstream error
the middleware logs at error level and re-raises the same error. -/
def LoggingMiddleware.dispatch {ε : Type} (request : TraceRequest)
    (slot : Option String) (rand : Nat) (start_time end_time : Nat)
    (call_next : TraceRequest → Except ε MwResponse) (err_str : ε → String) :
    DispatchResult ε :=
  let r := set_trace_context_from_request request slot (generate_request_id rand)
  let request_id := r.1
  let request' := r.2.1
  let slot' := r.2.2
  let start_log : LogRecord := ⟨.info, request.method ++ " " ++ request.path⟩
  match call_next request' with
  | .ok response =>
    let process_time := end_time - start_time
    let ok_log : LogRecord := ⟨.info,
      request.method ++ " " ++ request.path ++ " - Status: "
        ++ toString response.status_code ++ " - Time: " ++ toString process_time ++ "s"⟩
    let response := add_trace_headers_to_response response request_id
    let response :=
      { response with
        headers := dictSet response.headers "X-Process-Time" (toString process_time) }
    ⟨.ok response, slot', [start_log, ok_log]⟩
  | .error e =>
    let process_time := end_time - start_time
    let err_log : LogRecord := ⟨.error,
      request.method ++ " " ++ request.path ++ " - Error: " ++ err_str e
        ++ " - Time: " ++ toString process_time ++ "s"⟩
    ⟨.error e, slot', [start_log, err_log]⟩

/-! ## Generic repository (app/repositories/base_repository.py)

The repository is generic over models derived from `BaseModel`; the
store is modelled as the list of rows of the instantiating model (`User`
for the user repository).  `id` parameters arrive as strings from URL
paths while the `id` column is an `Integer`; as in `get_by_id`, a row
matches when its integer id renders as the given decimal string. -/

/-- `Result.scalar_one_or_none()` on the rows matching a filter: `none`
for no row, the row when unique, and a `MultipleResultsFound` error
otherwise. -/
def scalar_one_or_none (rows : List User) : Except String (Option User) :=
  match rows with
  | [] => .ok none
  | [row] => .ok (some row)
  | _ => .error "MultipleResultsFound"

/-- `BaseRepository.delete(db, id)` returning the deleted row (or `none`)
together with the store after the transaction.  When a row is found,
`db.delete(obj)` removes the rows whose primary key equals `obj.id`;
otherwise nothing is committed. -/
def BaseRepository.delete (db : List User) (id : String) :
    Except String (Option User × List User) :=
  match scalar_one_or_none (db.filter (fun u => toString u.id == id)) with
  | .error e => .error e
  | .ok none => .ok (none, db)
  | .ok (some obj) =>
    .ok (some obj, db.filter (fun u => !(u.id == obj.id)))

/-- `BaseRepository.soft_delete(db, id)`: when a row is found, sets its
`is_active` column to `False` (an update of the rows whose primary key
equals `obj.id`) and returns the refreshed row; otherwise nothing is
committed. -/
def BaseRepository.soft_delete (db : List User) (id : String) :
    Except String (Option User × List User) :=
  match scalar_one_or_none (db.filter (fun u => toString u.id == id)) with
  | .error e => .error e
  | .ok none => .ok (none, db)
  | .ok (some obj) =>
    .ok (some { obj with is_active := false },
      db.map (fun u => if u.id == obj.id then { obj with is_active := false } else u))

/-! ## Helper lemmas: Python dict operations -/

theorem dictGet_dictSet_self {α : Type} (d : List (String × α)) (k : String) (v : α) :
    dictGet (dictSet d k v) k = some v := by
  induction d with
  | nil => simp [dictGet, dictSet]
  | cons p ps ih =>
    by_cases h : p.1 = k
    · simp [dictGet, dictSet, h]
    · simp [dictGet, dictSet, h, ih]

theorem dictGet_dictSet_ne {α : Type} (d : List (String × α)) (k k' : String) (v : α)
    (h : k ≠ k') : dictGet (dictSet d k v) k' = dictGet d k' := by
  induction d with
  | nil => simp [dictGet, dictSet, h]
  | cons p ps ih =>
    by_cases hp : p.1 = k
    · simp [dictGet, dictSet, hp, h]
    · simp [dictGet, dictSet, hp, ih]

/-! ## Helper lemmas about the generated request id -/

theorem isHexDigitChar_hexChar (n : Nat) : isHexDigitChar (hexChar n) = true := by
  have h : n % 16 < 16 := Nat.mod_lt _ (by norm_num)
  unfold hexChar
  interval_cases h : n % 16 <;> decide

theorem uuid4Nat_version (r : Nat) : uuid4Nat r / 16 ^ 19 % 16 = 4 := by
  have h : (16:Nat) ^ 19 = 2 ^ 76 := by norm_num
  unfold uuid4Nat
  rw [h]
  generalize r % 2 ^ 128 = i
  generalize i % 2 ^ 62 + 2 ^ 63 + i / 2 ^ 64 * 2 ^ 64 = v
  omega

theorem uuid4Nat_variant (r : Nat) :
    8 ≤ uuid4Nat r / 16 ^ 15 % 16 ∧ uuid4Nat r / 16 ^ 15 % 16 < 12 := by
  have h : (16:Nat) ^ 15 = 2 ^ 60 := by norm_num
  unfold uuid4Nat
  rw [h]
  generalize r % 2 ^ 128 = i
  omega

theorem generate_request_id_data (r : Nat) : (generate_request_id r).data =
    [hexChar (uuid4Nat r / 16 ^ 31), hexChar (uuid4Nat r / 16 ^ 30),
     hexChar (uuid4Nat r / 16 ^ 29), hexChar (uuid4Nat r / 16 ^ 28),
     hexChar (uuid4Nat r / 16 ^ 27), hexChar (uuid4Nat r / 16 ^ 26),
     hexChar (uuid4Nat r / 16 ^ 25), hexChar (uuid4Nat r / 16 ^ 24), '-',
     hexChar (uuid4Nat r / 16 ^ 23), hexChar (uuid4Nat r / 16 ^ 22),
     hexChar (uuid4Nat r / 16 ^ 21), hexChar (uuid4Nat r / 16 ^ 20), '-',
     hexChar (uuid4Nat r / 16 ^ 19), hexChar (uuid4Nat r / 16 ^ 18),
     hexChar (uuid4Nat r / 16 ^ 17), hexChar (uuid4Nat r / 16 ^ 16), '-',
     hexChar (uuid4Nat r / 16 ^ 15), hexChar (uuid4Nat r / 16 ^ 14),
     hexChar (uuid4Nat r / 16 ^ 13), hexChar (uuid4Nat r / 16 ^ 12), '-',
     hexChar (uuid4Nat r / 16 ^ 11), hexChar (uuid4Nat r / 16 ^ 10),
     hexChar (uuid4Nat r / 16 ^ 9), hexChar (uuid4Nat r / 16 ^ 8),
     hexChar (uuid4Nat r / 16 ^ 7), hexChar (uuid4Nat r / 16 ^ 6),
     hexChar (uuid4Nat r / 16 ^ 5), hexChar (uuid4Nat r / 16 ^ 4),
     hexChar (uuid4Nat r / 16 ^ 3), hexChar (uuid4Nat r / 16 ^ 2),
     hexChar (uuid4Nat r / 16 ^ 1), hexChar (uuid4Nat r / 16 ^ 0)] := rfl

theorem hexChar_version (r : Nat) : hexChar (uuid4Nat r / 16 ^ 19) = '4' := by
  unfold hexChar
  rw [uuid4Nat_version]
  rfl

theorem hexChar_variant (r : Nat) :
    hexChar (uuid4Nat r / 16 ^ 15) = '8' ∨ hexChar (uuid4Nat r / 16 ^ 15) = '9' ∨
    hexChar (uuid4Nat r / 16 ^ 15) = 'a' ∨ hexChar (uuid4Nat r / 16 ^ 15) = 'b' := by
  obtain ⟨hlo, hhi⟩ := uuid4Nat_variant r
  unfold hexChar
  interval_cases h : uuid4Nat r / 16 ^ 15 % 16
  · left; rfl
  · right; left; rfl
  · right; right; left; rfl
  · right; right; right; rfl

theorem generate_request_id_valid (r : Nat) :
    isValidRequestId (generate_request_id r) = true := by
  unfold isValidRequestId
  rw [generate_request_id_data]
  simp only [List.all_cons, List.all_nil, isHexDigitChar_hexChar, Bool.and_true,
    Bool.true_and, hexChar_version]
  rcases hexChar_variant r with h | h | h | h <;> rw [h] <;> decide

theorem generate_request_id_ne_empty (r : Nat) : generate_request_id r ≠ "" := by
  intro h
  have : (generate_request_id r).data = [] := by rw [h]
  rw [generate_request_id_data] at this
  exact absurd this (by simp)

/-! ## Claims -/

/-- Claim C9: `set_request_id` with a falsy value (`None` or the empty
string) leaves the ambient request-id slot unchanged, whatever its prior
state; only a truthy identifier overwrites the slot. -/
theorem claim_C9_set_request_id_frame (slot : Option String) :
    set_request_id slot none = slot ∧
    set_request_id slot (some "") = slot ∧
    ∀ s : String, s ≠ "" → set_request_id slot (some s) = some s := by
  refine ⟨rfl, rfl, ?_⟩
  intro s hs
  simp [set_request_id, pyTruthyStr, hs]

theorem claim_C9_witness :
    set_request_id (some "old-id") none = some "old-id" ∧
    set_request_id (some "old-id") (some "") = some "old-id" ∧
    set_request_id (some "old-id") (some "new-id") = some "new-id" :=
  ⟨(claim_C9_set_request_id_frame (some "old-id")).1,
   (claim_C9_set_request_id_frame (some "old-id")).2.1,
   (claim_C9_set_request_id_frame (some "old-id")).2.2 "new-id" (by decide)⟩

/-- Claim C6: `get_current_active_user` returns the principal unchanged
when `is_active` is true and fails with the 400 `Inactive user` error
when `is_active` is false. -/
theorem claim_C6_require_active (u : User) :
    (u.is_active = true → get_current_active_user u = .ok u) ∧
    (u.is_active = false → get_current_active_user u = .error inactive_user_error) := by
  constructor <;> intro h <;> simp [get_current_active_user, h]

theorem claim_C6_witness :
    get_current_active_user ⟨1, "alice", "alice@example.com", "hpw", true, false⟩
      = .ok ⟨1, "alice", "alice@example.com", "hpw", true, false⟩ ∧
    get_current_active_user ⟨2, "bob", "bob@example.com", "hpw", false, false⟩
      = .error inactive_user_error :=
  ⟨(claim_C6_require_active ⟨1, "alice", "alice@example.com", "hpw", true, false⟩).1 rfl,
   (claim_C6_require_active ⟨2, "bob", "bob@example.com", "hpw", false, false⟩).2 rfl⟩

/-- Claim C5 evaluated at its failing input: the stored principal with
integer id 1 acts on the path id "1" (acting on themself, no superuser
flag).  The claim says both mutations pass the authorization gate; the
code rejects both with 403, because `update_user` compares the `str`
path parameter against the `int` id column (never equal in Python) and
`delete_user` demands the superuser flag outright. -/
theorem claim_C5_self_mutation_rejected :
    update_user [⟨1, "alice", "alice@example.com", "hpw", true, false⟩] "1"
        ⟨1, "alice", "alice@example.com", "hpw", true, false⟩
      = .error forbidden_error ∧
    delete_user [⟨1, "alice", "alice@example.com", "hpw", true, false⟩] "1"
        ⟨1, "alice", "alice@example.com", "hpw", true, false⟩
      = .error forbidden_error ∧
    toString (1 : Int) = "1" :=
  ⟨rfl, rfl, rfl⟩

/-- Claim C2: for a claim set containing `sub` and a positive ttl,
decoding the token produced by `create_access_token` succeeds (returning
the claims extended with the `exp` field) at every time strictly before
issuance plus ttl, and fails with the invalid-token 401 at every time at
or after issuance plus ttl. -/
theorem claim_C2_ttl_window (S : Settings) (data : List (String × JwtValue))
    (sub : JwtValue) (ttl now t : Int) (hsub : dictGet data "sub" = some sub)
    (httl : 0 < ttl) :
    (t < now + ttl →
      decode_token S (.signed (create_access_token S data (some ttl) now)) t
        = .ok (dictSet data "exp" (.num (now + ttl)))) ∧
    (now + ttl ≤ t →
      decode_token S (.signed (create_access_token S data (some ttl) now)) t
        = .error could_not_validate) := by
  have hne : ttl ≠ 0 := by omega
  constructor <;> intro ht
  · simp [decode_token, create_access_token, jwt_encode, jwt_decode, hne,
      dictGet_dictSet_self, show ¬(now + ttl ≤ t) by omega]
  · simp [decode_token, create_access_token, jwt_encode, jwt_decode, hne,
      dictGet_dictSet_self, ht]

theorem claim_C2_witness :
    decode_token ⟨"server-secret", "HS256"⟩
        (.signed (create_access_token ⟨"server-secret", "HS256"⟩
          [("sub", JwtValue.str "alice")] (some 1) 0)) 0
      = .ok [("sub", JwtValue.str "alice"), ("exp", JwtValue.num 1)] ∧
    decode_token ⟨"server-secret", "HS256"⟩
        (.signed (create_access_token ⟨"server-secret", "HS256"⟩
          [("sub", JwtValue.str "alice")] (some 1) 0)) 1
      = .error could_not_validate := by
  have h := claim_C2_ttl_window ⟨"server-secret", "HS256"⟩
    [("sub", JwtValue.str "alice")] (JwtValue.str "alice") 1 0 0 rfl (by norm_num)
  have h2 := claim_C2_ttl_window ⟨"server-secret", "HS256"⟩
    [("sub", JwtValue.str "alice")] (JwtValue.str "alice") 1 0 1 rfl (by norm_num)
  exact ⟨(h.1 (by norm_num)).trans rfl, h2.2 (by norm_num)⟩

/-- Claim C3: `decode_token` fails with the 401 invalid-token response
for every token signed with a different secret, every token signed with
an algorithm other than the configured one, every token whose `exp`
claim is in the past, every structurally malformed string (and likewise
a non-integer `exp` claim); it returns the decoded claims whenever
verification succeeds. -/
theorem claim_C3_decode_token_failures (S : Settings) (now : Int) :
    (∀ t : SignedToken, t.key ≠ S.JWT_SECRET_KEY →
        decode_token S (.signed t) now = .error could_not_validate) ∧
    (∀ t : SignedToken, t.alg ≠ S.JWT_ALGORITHM →
        decode_token S (.signed t) now = .error could_not_validate) ∧
    (∀ (t : SignedToken) (e : Int), dictGet t.payload "exp" = some (.num e) →
        e < now → decode_token S (.signed t) now = .error could_not_validate) ∧
    (∀ s : String, decode_token S (.malformed s) now = .error could_not_validate) ∧
    (∀ (t : SignedToken) (s : String), dictGet t.payload "exp" = some (.str s) →
        decode_token S (.signed t) now = .error could_not_validate) ∧
    (∀ t : SignedToken, t.key = S.JWT_SECRET_KEY → t.alg = S.JWT_ALGORITHM →
        (dictGet t.payload "exp" = none ∨
          ∃ e : Int, dictGet t.payload "exp" = some (.num e) ∧ now < e) →
        decode_token S (.signed t) now = .ok t.payload) := by
  refine ⟨?_, ?_, ?_, ?_, ?_, ?_⟩
  · intro t hk
    by_cases ha : t.alg = S.JWT_ALGORITHM
    · simp [decode_token, jwt_decode, ha, hk]
    · simp [decode_token, jwt_decode, ha]
  · intro t ha
    simp [decode_token, jwt_decode, ha]
  · intro t e hexp hlt
    by_cases ha : t.alg = S.JWT_ALGORITHM
    · by_cases hk : t.key = S.JWT_SECRET_KEY
      · simp [decode_token, jwt_decode, ha, hk, hexp, show e ≤ now by omega]
      · simp [decode_token, jwt_decode, ha, hk]
    · simp [decode_token, jwt_decode, ha]
  · intro s
    simp [decode_token, jwt_decode]
  · intro t s hexp
    by_cases ha : t.alg = S.JWT_ALGORITHM
    · by_cases hk : t.key = S.JWT_SECRET_KEY
      · simp [decode_token, jwt_decode, ha, hk, hexp]
      · simp [decode_token, jwt_decode, ha, hk]
    · simp [decode_token, jwt_decode, ha]
  · intro t hk ha hexp
    rcases hexp with h | ⟨e, he, hlt⟩
    · simp [decode_token, jwt_decode, ha, hk, h]
    · simp [decode_token, jwt_decode, ha, hk, he, show ¬(e ≤ now) by omega]

theorem claim_C3_witness :
    decode_token ⟨"server-secret", "HS256"⟩
        (.signed ⟨[("sub", JwtValue.str "alice")], "other-secret", "HS256"⟩) 50
      = .error could_not_validate ∧
    decode_token ⟨"server-secret", "HS256"⟩
        (.signed ⟨[("sub", JwtValue.str "alice")], "server-secret", "HS512"⟩) 50
      = .error could_not_validate ∧
    decode_token ⟨"server-secret", "HS256"⟩
        (.signed ⟨[("exp", JwtValue.num 10)], "server-secret", "HS256"⟩) 50
      = .error could_not_validate ∧
    decode_token ⟨"server-secret", "HS256"⟩ (.malformed "not.a.jwt") 50
      = .error could_not_validate ∧
    decode_token ⟨"server-secret", "HS256"⟩
        (.signed ⟨[("sub", JwtValue.str "alice"), ("exp", JwtValue.num 100)],
          "server-secret", "HS256"⟩) 50
      = .ok [("sub", JwtValue.str "alice"), ("exp", JwtValue.num 100)] := by
  have h := claim_C3_decode_token_failures ⟨"server-secret", "HS256"⟩ 50
  refine ⟨h.1 _ (by decide), h.2.1 _ (by decide), h.2.2.1 _ 10 rfl (by norm_num),
    h.2.2.2.1 "not.a.jwt", h.2.2.2.2.2 _ rfl rfl (Or.inr ⟨100, rfl, by norm_num⟩)⟩

/-! ## Helper lemmas about decode_token and get_current_user -/

theorem decode_token_error_shape (S : Settings) (w : TokenWire) (now : Int)
    (err : HTTPError) (h : decode_token S w now = .error err) :
    err = could_not_validate := by
  unfold decode_token at h
  cases hj : jwt_decode w S.JWT_SECRET_KEY [S.JWT_ALGORITHM] now <;> rw [hj] at h
  · simpa using h.symm
  · simp at h

/-- Claim C4: `get_current_user` fails with an error of identical
observable shape (status 401, same detail, same headers) for a token
that fails to decode, for a valid token lacking a `sub` claim, and for a
valid token whose subject matches no stored principal — no signal about
account existence leaks; when the subject matches a stored principal,
that principal is returned. -/
theorem claim_C4_uniform_unauthorized (S : Settings) (db : List User) (now : Int) :
    (∀ (w : TokenWire) (err : HTTPError), decode_token S w now = .error err →
        get_current_user S db w now = .error credentials_exception) ∧
    (∀ (w : TokenWire) (payload : List (String × JwtValue)),
        decode_token S w now = .ok payload → dictGet payload "sub" = none →
        get_current_user S db w now = .error credentials_exception) ∧
    (∀ (w : TokenWire) (payload : List (String × JwtValue)) (s : String),
        decode_token S w now = .ok payload →
        dictGet payload "sub" = some (.str s) → get_by_username db s = none →
        get_current_user S db w now = .error credentials_exception) ∧
    (∀ (w : TokenWire) (payload : List (String × JwtValue)) (s : String) (u : User),
        decode_token S w now = .ok payload →
        dictGet payload "sub" = some (.str s) → get_by_username db s = some u →
        get_current_user S db w now = .ok u) := by
  refine ⟨?_, ?_, ?_, ?_⟩
  · intro w err hdec
    have hshape := decode_token_error_shape S w now err hdec
    unfold get_current_user
    rw [hdec, hshape]
    rfl
  · intro w payload hdec hsub
    simp [get_current_user, hdec, hsub]
  · intro w payload s hdec hsub hlook
    simp [get_current_user, hdec, hsub, hlook]
  · intro w payload s u hdec hsub hlook
    simp [get_current_user, hdec, hsub, hlook]

theorem claim_C4_witness :
    get_current_user ⟨"server-secret", "HS256"⟩
        [⟨1, "alice", "alice@example.com", "hpw", true, false⟩]
        (.malformed "garbage") 0
      = .error credentials_exception ∧
    get_current_user ⟨"server-secret", "HS256"⟩
        [⟨1, "alice", "alice@example.com", "hpw", true, false⟩]
        (.signed ⟨[("role", JwtValue.str "admin")], "server-secret", "HS256"⟩) 0
      = .error credentials_exception ∧
    get_current_user ⟨"server-secret", "HS256"⟩
        [⟨1, "alice", "alice@example.com", "hpw", true, false⟩]
        (.signed ⟨[("sub", JwtValue.str "ghost")], "server-secret", "HS256"⟩) 0
      = .error credentials_exception ∧
    get_current_user ⟨"server-secret", "HS256"⟩
        [⟨1, "alice", "alice@example.com", "hpw", true, false⟩]
        (.signed ⟨[("sub", JwtValue.str "alice")], "server-secret", "HS256"⟩) 0
      = .ok ⟨1, "alice", "alice@example.com", "hpw", true, false⟩ := by
  have h := claim_C4_uniform_unauthorized ⟨"server-secret", "HS256"⟩
    [⟨1, "alice", "alice@example.com", "hpw", true, false⟩] 0
  exact ⟨h.1 _ could_not_validate rfl, h.2.1 _ [("role", JwtValue.str "admin")] rfl rfl,
    h.2.2.1 _ [("sub", JwtValue.str "ghost")] "ghost" rfl rfl rfl,
    h.2.2.2 _ [("sub", JwtValue.str "alice")] "alice" _ rfl rfl rfl⟩

/-- Claim C7 is refuted at `ttl = timedelta(0)`: a zero `timedelta` is
falsy in Python, so `create_access_token` falls back to the 15-minute
default instead of `now + ttl`.  With `now = 0`, the claim predicts
`exp = 0`; the code produces `exp = 900`. -/
theorem claim_C7_counterexample :
    dictGet (create_access_token ⟨"server-secret", "HS256"⟩ [] (some 0) 0).payload "exp"
      = some (JwtValue.num 900) ∧ (900 : Int) ≠ 0 + 0 :=
  ⟨rfl, by norm_num⟩

/-- Claim C7 (amended): `create_access_token` produces a token signed
with the configured secret and algorithm whose payload is the input
claim dictionary extended with an `exp` field equal to `now + ttl` for
every truthy (nonzero) ttl, defaulting to 15 minutes when the ttl is
unspecified — or zero, since a zero `timedelta` is falsy; every claim
other than `exp` is preserved, and `exp` is always present.  The model
is pure: the input dictionary is never mutated. -/
theorem claim_C7_create_access_token (S : Settings) (data : List (String × JwtValue))
    (expires_delta : Option Int) (now : Int) :
    (create_access_token S data expires_delta now).key = S.JWT_SECRET_KEY ∧
    (create_access_token S data expires_delta now).alg = S.JWT_ALGORITHM ∧
    (∀ d : Int, expires_delta = some d → d ≠ 0 →
      (create_access_token S data expires_delta now).payload
        = dictSet data "exp" (.num (now + d))) ∧
    (expires_delta = none ∨ expires_delta = some 0 →
      (create_access_token S data expires_delta now).payload
        = dictSet data "exp" (.num (now + 15 * 60))) ∧
    (∀ k : String, k ≠ "exp" →
      dictGet (create_access_token S data expires_delta now).payload k
        = dictGet data k) ∧
    (∃ e : Int, dictGet (create_access_token S data expires_delta now).payload "exp"
      = some (.num e)) := by
  refine ⟨rfl, rfl, ?_, ?_, ?_, ?_⟩
  · intro d hd hne
    subst hd
    simp [create_access_token, jwt_encode, hne]
  · intro h
    rcases h with h | h <;> subst h <;> simp [create_access_token, jwt_encode]
  · intro k hk
    cases expires_delta with
    | none =>
      exact dictGet_dictSet_ne data "exp" k _ (fun he => hk he.symm)
    | some d =>
      by_cases hd : d = 0 <;>
        simp [create_access_token, jwt_encode, hd,
          dictGet_dictSet_ne data "exp" k _ (fun he => hk he.symm)]
  · cases expires_delta with
    | none => exact ⟨now + 15 * 60, dictGet_dictSet_self data "exp" _⟩
    | some d =>
      by_cases hd : d = 0
      · subst hd
        exact ⟨now + 15 * 60,
          by simp [create_access_token, jwt_encode, dictGet_dictSet_self]⟩
      · exact ⟨now + d,
          by simp [create_access_token, jwt_encode, hd, dictGet_dictSet_self]⟩

theorem claim_C7_witness :
    (create_access_token ⟨"server-secret", "HS256"⟩
        [("sub", JwtValue.str "alice")] (some 60) 100).key = "server-secret" ∧
    (create_access_token ⟨"server-secret", "HS256"⟩
        [("sub", JwtValue.str "alice")] (some 60) 100).payload
      = [("sub", JwtValue.str "alice"), ("exp", JwtValue.num 160)] ∧
    (create_access_token ⟨"server-secret", "HS256"⟩
        [("sub", JwtValue.str "alice")] none 100).payload
      = [("sub", JwtValue.str "alice"), ("exp", JwtValue.num 1000)] := by
  have h := claim_C7_create_access_token ⟨"server-secret", "HS256"⟩
    [("sub", JwtValue.str "alice")] (some 60) 100
  have h2 := claim_C7_create_access_token ⟨"server-secret", "HS256"⟩
    [("sub", JwtValue.str "alice")] none 100
  exact ⟨h.1, (h.2.2.1 60 rfl (by norm_num)).trans rfl,
    (h2.2.2.2.1 (Or.inl rfl)).trans rfl⟩

/-! ## Helper lemmas about the tracing middleware -/

theorem set_trace_context_fresh (request : TraceRequest) (slot : Option String)
    (fresh : String)
    (hh : request.header_x_request_id = none ∨ request.header_x_request_id = some "")
    (hs : request.state_request_id = none) :
    (set_trace_context_from_request request slot fresh).1 = fresh := by
  rcases hh with h | h <;> simp [set_trace_context_from_request, h, hs, pyTruthyStr]

theorem set_trace_context_echo (request : TraceRequest) (slot : Option String)
    (fresh : String) (s : String) (hh : request.header_x_request_id = some s)
    (hs : s ≠ "") :
    (set_trace_context_from_request request slot fresh).1 = s := by
  simp [set_trace_context_from_request, hh, pyTruthyStr, hs]

theorem dispatch_ok_outcome {ε : Type} (request : TraceRequest) (slot : Option String)
    (rand : Nat) (start_time end_time : Nat)
    (call_next : TraceRequest → Except ε MwResponse) (err_str : ε → String)
    (response : MwResponse) (hnext : ∀ q, call_next q = .ok response) :
    (LoggingMiddleware.dispatch request slot rand start_time end_time call_next
        err_str).outcome
      = .ok { response with
          headers := dictSet
            (dictSet response.headers "X-Request-ID"
              (set_trace_context_from_request request slot
                (generate_request_id rand)).1)
            "X-Process-Time" (toString (end_time - start_time)) } := by
  unfold LoggingMiddleware.dispatch add_trace_headers_to_response
  simp only [hnext]

/-- Claim C8: when the downstream handler chain raises an error, the
middleware's outcome is exactly that error re-raised — it never swallows
or replaces it — and its log output ends with an error-level record
carrying the stringified error and the elapsed time. -/
theorem claim_C8_error_reraised {ε : Type} (request : TraceRequest)
    (slot : Option String) (rand : Nat) (start_time end_time : Nat)
    (call_next : TraceRequest → Except ε MwResponse) (err_str : ε → String)
    (e : ε) (hnext : ∀ q, call_next q = .error e) :
    (LoggingMiddleware.dispatch request slot rand start_time end_time call_next
        err_str).outcome = .error e ∧
    (LoggingMiddleware.dispatch request slot rand start_time end_time call_next
        err_str).logs
      = [⟨.info, request.method ++ " " ++ request.path⟩,
         ⟨.error, request.method ++ " " ++ request.path ++ " - Error: " ++ err_str e
            ++ " - Time: " ++ toString (end_time - start_time) ++ "s"⟩] := by
  unfold LoggingMiddleware.dispatch
  simp only [hnext]
  refine ⟨?_, ?_⟩ <;> trivial

theorem claim_C8_witness :
    (LoggingMiddleware.dispatch ⟨"GET", "/api/v1/users", none, none⟩ none 0 3 10
        (fun _ => .error "boom") (fun s => s)).outcome = .error "boom" ∧
    (LoggingMiddleware.dispatch ⟨"GET", "/api/v1/users", none, none⟩ none 0 3 10
        (fun _ => .error "boom") (fun s => s)).logs
      = [⟨.info, "GET /api/v1/users"⟩,
         ⟨.error, "GET /api/v1/users - Error: boom - Time: 7s"⟩] := by
  have h := claim_C8_error_reraised ⟨"GET", "/api/v1/users", none, none⟩ none 0 3 10
    (fun _ => Except.error "boom") (fun s => s) "boom" (fun _ => rfl)
  exact ⟨h.1, h.2.trans rfl⟩

/-- Claim C1 (amended): for an inbound request (no request id attached to
`request.state` yet) whose `X-Request-ID` header is missing — or carries
the empty string, which Python treats the same — the middleware
generates a fresh, syntactically valid UUID4 identifier and the
response's `X-Request-ID` header equals that generated value; for a
request supplying a non-empty `X-Request-ID` header, the response's
`X-Request-ID` header equals the supplied value unchanged. -/
theorem claim_C1_response_request_id {ε : Type} (request : TraceRequest)
    (slot : Option String) (rand : Nat) (start_time end_time : Nat)
    (call_next : TraceRequest → Except ε MwResponse) (err_str : ε → String)
    (response : MwResponse) (hstate : request.state_request_id = none)
    (hnext : ∀ q, call_next q = .ok response) :
    (request.header_x_request_id = none ∨ request.header_x_request_id = some "" →
      ∀ final : MwResponse,
        (LoggingMiddleware.dispatch request slot rand start_time end_time call_next
            err_str).outcome = .ok final →
        dictGet final.headers "X-Request-ID" = some (generate_request_id rand) ∧
        isValidRequestId (generate_request_id rand) = true) ∧
    (∀ s : String, request.header_x_request_id = some s → s ≠ "" →
      ∀ final : MwResponse,
        (LoggingMiddleware.dispatch request slot rand start_time end_time call_next
            err_str).outcome = .ok final →
        dictGet final.headers "X-Request-ID" = some s) := by
  have hout := dispatch_ok_outcome request slot rand start_time end_time call_next
    err_str response hnext
  constructor
  · intro hh final hfinal
    rw [hout] at hfinal
    have hrid := set_trace_context_fresh request slot (generate_request_id rand) hh hstate
    rw [hrid] at hfinal
    cases hfinal
    constructor
    · rw [dictGet_dictSet_ne _ _ _ _ (by decide), dictGet_dictSet_self]
    · exact generate_request_id_valid rand
  · intro s hh hs final hfinal
    rw [hout] at hfinal
    have hrid := set_trace_context_echo request slot (generate_request_id rand) s hh hs
    rw [hrid] at hfinal
    cases hfinal
    rw [dictGet_dictSet_ne _ _ _ _ (by decide), dictGet_dictSet_self]

theorem claim_C1_witness :
    dictGet
        (match (LoggingMiddleware.dispatch ⟨"GET", "/api/v1/health", none, none⟩ none 7
            0 1 (fun _ => Except.ok ⟨200, []⟩) (fun _ : Unit => "")).outcome with
         | .ok final => final.headers
         | .error _ => []) "X-Request-ID" = some (generate_request_id 7) ∧
    isValidRequestId (generate_request_id 7) = true ∧
    dictGet
        (match (LoggingMiddleware.dispatch ⟨"GET", "/api/v1/health", some "abc-123",
            none⟩ none 7 0 1 (fun _ => Except.ok ⟨200, []⟩)
            (fun _ : Unit => "")).outcome with
         | .ok final => final.headers
         | .error _ => []) "X-Request-ID" = some "abc-123" := by
  have h := claim_C1_response_request_id ⟨"GET", "/api/v1/health", none, none⟩ none 7
    0 1 (fun _ => Except.ok ⟨200, []⟩) (fun _ : Unit => "") ⟨200, []⟩ rfl (fun _ => rfl)
  have h2 := claim_C1_response_request_id ⟨"GET", "/api/v1/health", some "abc-123",
    none⟩ none 7 0 1 (fun _ => Except.ok ⟨200, []⟩) (fun _ : Unit => "") ⟨200, []⟩ rfl
    (fun _ => rfl)
  have ha := h.1 (Or.inl rfl) _ rfl
  have hb := h2.2 "abc-123" rfl (by decide) _ rfl
  exact ⟨ha.1, ha.2, hb⟩

/-- Claim C1 is refuted at a request that supplies the `X-Request-ID`
header with the empty-string value: the supplied value is not echoed
back; the middleware treats the empty header as absent and answers with
a freshly generated identifier instead. -/
theorem claim_C1_counterexample :
    (LoggingMiddleware.dispatch ⟨"GET", "/api/v1/health", some "", none⟩ none 0 0 0
        (fun _ => Except.ok ⟨200, []⟩) (fun _ : Unit => "")).outcome
      = Except.ok ⟨200, [("X-Request-ID", "00000000-0000-4000-8000-000000000000"),
          ("X-Process-Time", "0")]⟩ ∧
    ("00000000-0000-4000-8000-000000000000" : String) ≠ "" :=
  ⟨rfl, by decide⟩

/-! ## Helper lemmas about list stores -/

theorem filter_eq_singleton_split {α : Type} (l : List α) (p : α → Bool) (a : α)
    (h : l.filter p = [a]) :
    ∃ pre post, l = pre ++ a :: post ∧ (∀ x ∈ pre, p x = false) ∧
      (∀ x ∈ post, p x = false) ∧ p a = true := by
  induction l with
  | nil => simp at h
  | cons x xs ih =>
    by_cases hp : p x
    · rw [List.filter_cons_of_pos hp] at h
      obtain ⟨rfl, hnil⟩ : x = a ∧ xs.filter p = [] :=
        ⟨(List.cons.inj h).1, (List.cons.inj h).2⟩
      refine ⟨[], xs, by simp, by simp, ?_, hp⟩
      intro y hy
      simpa using List.filter_eq_nil_iff.mp hnil y hy
    · rw [List.filter_cons_of_neg hp] at h
      obtain ⟨pre, post, rfl, hpre, hpost, ha⟩ := ih h
      refine ⟨x :: pre, post, rfl, ?_, hpost, ha⟩
      intro y hy
      rcases List.mem_cons.mp hy with rfl | hy
      · simpa using hp
      · exact hpre y hy

theorem map_eq_self_of_mem {α : Type} (l : List α) (f : α → α)
    (h : ∀ x ∈ l, f x = x) : l.map f = l := by
  induction l with
  | nil => rfl
  | cons x xs ih =>
    rw [List.map_cons, h x (by simp), ih (fun y hy => h y (by simp [hy]))]

/-- Claim C10: when the id matches no stored row, `delete` and
`soft_delete` return `None` without error and leave the store unchanged;
when the id matches one stored row, `delete` removes exactly that row
and `soft_delete` clears exactly that row's `is_active` flag, leaving
every other row untouched. -/
theorem claim_C10_repository_delete (db : List User) (id : String) :
    (db.filter (fun u => toString u.id == id) = [] →
      BaseRepository.delete db id = .ok (none, db) ∧
      BaseRepository.soft_delete db id = .ok (none, db)) ∧
    (∀ obj : User, db.filter (fun u => toString u.id == id) = [obj] →
      ∃ pre post : List User,
        db = pre ++ obj :: post ∧
        BaseRepository.delete db id = .ok (some obj, pre ++ post) ∧
        BaseRepository.soft_delete db id
          = .ok (some { obj with is_active := false },
              pre ++ { obj with is_active := false } :: post)) := by
  constructor
  · intro h
    refine ⟨?_, ?_⟩
    · unfold BaseRepository.delete
      rw [h]
      rfl
    · unfold BaseRepository.soft_delete
      rw [h]
      rfl
  · intro obj h
    obtain ⟨pre, post, hdb, hpre, hpost, hobj⟩ :=
      filter_eq_singleton_split db _ obj h
    have hne : ∀ x : User, (toString x.id == id) = false → (x.id == obj.id) = false := by
      intro x hx
      cases hb : (x.id == obj.id) with
      | false => rfl
      | true =>
        have hxid : x.id = obj.id := eq_of_beq hb
        rw [hxid, hobj] at hx
        exact absurd hx (by decide)
    have hprestay : pre.filter (fun u => !(u.id == obj.id)) = pre :=
      List.filter_eq_self.mpr (fun x hx => by rw [hne x (hpre x hx)]; rfl)
    have hpoststay : post.filter (fun u => !(u.id == obj.id)) = post :=
      List.filter_eq_self.mpr (fun x hx => by rw [hne x (hpost x hx)]; rfl)
    have hfilter : db.filter (fun u => !(u.id == obj.id)) = pre ++ post := by
      rw [hdb, List.filter_append, hprestay, List.filter_cons]
      simp [hpoststay]
    have hmap : db.map
        (fun u => if u.id == obj.id then { obj with is_active := false } else u)
        = pre ++ { obj with is_active := false } :: post := by
      rw [hdb, List.map_append, List.map_cons]
      rw [map_eq_self_of_mem pre _ (fun x hx => by simp [hne x (hpre x hx)])]
      rw [map_eq_self_of_mem post _ (fun x hx => by simp [hne x (hpost x hx)])]
      simp
    refine ⟨pre, post, hdb, ?_, ?_⟩
    · unfold BaseRepository.delete
      rw [h]
      simp only [scalar_one_or_none, hfilter]
    · unfold BaseRepository.soft_delete
      rw [h]
      simp only [scalar_one_or_none, hmap]

theorem claim_C10_witness :
    BaseRepository.delete
        [⟨1, "alice", "alice@example.com", "hpw", true, false⟩,
         ⟨2, "bob", "bob@example.com", "hpw", true, false⟩] "3"
      = .ok (none, [⟨1, "alice", "alice@example.com", "hpw", true, false⟩,
          ⟨2, "bob", "bob@example.com", "hpw", true, false⟩]) ∧
    BaseRepository.soft_delete
        [⟨1, "alice", "alice@example.com", "hpw", true, false⟩,
         ⟨2, "bob", "bob@example.com", "hpw", true, false⟩] "3"
      = .ok (none, [⟨1, "alice", "alice@example.com", "hpw", true, false⟩,
          ⟨2, "bob", "bob@example.com", "hpw", true, false⟩]) ∧
    BaseRepository.delete
        [⟨1, "alice", "alice@example.com", "hpw", true, false⟩,
         ⟨2, "bob", "bob@example.com", "hpw", true, false⟩] "2"
      = .ok (some ⟨2, "bob", "bob@example.com", "hpw", true, false⟩,
          [⟨1, "alice", "alice@example.com", "hpw", true, false⟩]) ∧
    BaseRepository.soft_delete
        [⟨1, "alice", "alice@example.com", "hpw", true, false⟩,
         ⟨2, "bob", "bob@example.com", "hpw", true, false⟩] "2"
      = .ok (some ⟨2, "bob", "bob@example.com", "hpw", false, false⟩,
          [⟨1, "alice", "alice@example.com", "hpw", true, false⟩,
           ⟨2, "bob", "bob@example.com", "hpw", false, false⟩]) := by
  have hmiss := (claim_C10_repository_delete
    [⟨1, "alice", "alice@example.com", "hpw", true, false⟩,
     ⟨2, "bob", "bob@example.com", "hpw", true, false⟩] "3").1 (by rfl)
  have hhit := (claim_C10_repository_delete
    [⟨1, "alice", "alice@example.com", "hpw", true, false⟩,
     ⟨2, "bob", "bob@example.com", "hpw", true, false⟩] "2").2
    ⟨2, "bob", "bob@example.com", "hpw", true, false⟩ (by rfl)
  obtain ⟨pre, post, hdb, hdel, hsoft⟩ := hhit
  have hps : pre = [⟨1, "alice", "alice@example.com", "hpw", true, false⟩]
      ∧ post = ([] : List User) := by
    cases pre with
    | nil =>
      injection hdb with h1 h2
      exact absurd h1 (by decide)
    | cons y ys =>
      cases ys with
      | nil =>
        injection hdb with h1 h2
        injection h2 with h3 h4
        exact ⟨by rw [← h1], h4.symm⟩
      | cons z zs =>
        injection hdb with h1 h2
        injection h2 with h3 h4
        exact absurd h4.symm (by simp)
  obtain ⟨hp1, hp2⟩ := hps
  rw [hp1, hp2] at hdel hsoft
  exact ⟨hmiss.1, hmiss.2, by simpa using hdel, by simpa using hsoft⟩
